import Mathlib

/-!
Shallow embedding of the "forget" web application's account, session and
archive handling (src/routes.py), together with the retention-policy
definitions from the model layer that the routes call into.

Times are integers (seconds since an arbitrary epoch); Python `timedelta`
values become integer numbers of seconds.
-/

namespace Forget

/-- Seconds in one day, used to embed `timedelta(days=365)`. -/
def secondsPerDay : Int := 86400

/-- A post record: `Post` in the data model (id, creation time, favourite
flag). Only the fields the claims mention are embedded. -/
structure Post where
  id : Nat
  created_at : Int
  is_favourite : Bool
  deriving DecidableEq

/-- An account record: the policy fields, `last_delete` and `dormant`
consumed by src/routes.py. -/
structure Account where
  policy_enabled : Bool
  policy_keep_favourites : Bool
  policy_keep_latest : Nat
  policy_delete_every : Int
  policy_keep_younger : Int
  last_delete : Option Int
  dormant : Bool
  deriving DecidableEq

/-- Insert a post into a list that is sorted by `created_at` descending. -/
def insertByCreatedDesc (p : Post) : List Post → List Post
  | [] => [p]
  | q :: qs =>
    if q.created_at ≤ p.created_at then p :: q :: qs
    else q :: insertByCreatedDesc p qs

/-- Sort posts by `created_at` descending (insertion sort). -/
def sortByCreatedDesc : List Post → List Post
  | [] => []
  | p :: ps => insertByCreatedDesc p (sortByCreatedDesc ps)

/-- Modelled from the spec: the retention policy evaluator
`eligible_for_delete(account, posts, now)` lives in the model layer, which
is not under src/. Following the spec's algorithm: sort posts by
`created_at` descending; exclude the first `policy_keep_latest`; if
`policy_keep_favourites` is true, exclude all posts where `is_favourite`
is true; exclude any post younger than `policy_keep_younger`
(age = now − created_at); the remaining posts are eligible. -/
def eligible_for_delete (acc : Account) (posts : List Post) (now : Int) :
    List Post :=
  let sorted := sortByCreatedDesc posts
  let afterLatest := sorted.drop acc.policy_keep_latest
  let afterFavourites :=
    if acc.policy_keep_favourites then
      afterLatest.filter (fun p => !p.is_favourite)
    else afterLatest
  afterFavourites.filter (fun p => decide (acc.policy_keep_younger ≤ now - p.created_at))

/-- Modelled from the spec: `Account.estimate_eligible_for_delete()`,
called by the enable route but defined in the model layer, which is not
under src/. The spec calls it the "eligible-count estimate" surfaced in
the zero-delay warning, so it is the size of the evaluator's result. -/
def estimate_eligible_for_delete (acc : Account) (posts : List Post)
    (now : Int) : Nat :=
  (eligible_for_delete acc posts now).length

/-- Modelled from the spec: the model layer's `policy_enabled` attribute
setter (not under src/; src/routes.py only assigns
`account.policy_enabled = ...`). The spec: "On actual transition to
`enabled`, `last_delete` is (re)set to the current time if it was
previously unset". -/
def set_policy_enabled (acc : Account) (value : Bool) (now : Int) : Account :=
  if value && !acc.policy_enabled && acc.last_delete.isNone then
    { acc with policy_enabled := value, last_delete := some now }
  else
    { acc with policy_enabled := value }

/-- The response of the enable route: one of the two `warn.html` renders,
or the redirect to the index (the transition happened). The zero-delay
warning carries the estimated affected-post count passed into its
message. -/
inductive EnableResult where
  | warnZeroDelay (approx : Nat)
  | warnStale
  | redirectIndex
  deriving DecidableEq

/-- Whether an enable response is one of the two warning screens. -/
def EnableResult.isWarning : EnableResult → Bool
  | .redirectIndex => false
  | _ => true

/-- The state after an enable call: the (possibly updated) account
together with the response. -/
structure EnableOutcome where
  account : Account
  result : EnableResult
  deriving DecidableEq

/-- src/routes.py lines 219-221: `not account.last_delete or
account.last_delete < datetime.now(utc) - timedelta(days=365)`.
A `datetime` is always truthy in Python, so `not last_delete` is exactly
"`last_delete` is unset". -/
def lastDeleteStale (last_delete : Option Int) (now : Int) : Bool :=
  match last_delete with
  | none => true
  | some ld => decide (ld < now - 365 * secondsPerDay)

/-- The enable route (src/routes.py lines 202-234). `confirm` is whether
the form field `confirm` is present. `posts`/`now` feed the eligibility
estimate and the staleness check. -/
def enable (confirm : Bool) (acc : Account) (posts : List Post) (now : Int) :
    EnableOutcome :=
  if !confirm && !acc.policy_enabled then
    if acc.policy_delete_every = 0 then
      { account := acc
        result :=
          EnableResult.warnZeroDelay (estimate_eligible_for_delete acc posts now) }
    else if lastDeleteStale acc.last_delete now then
      { account := acc, result := EnableResult.warnStale }
    else
      { account := set_policy_enabled acc true now
        result := EnableResult.redirectIndex }
  else
    { account := set_policy_enabled acc true now
      result := EnableResult.redirectIndex }

/-- The disable route (src/routes.py lines 192-199): unconditionally
assigns `policy_enabled = False` (through the model layer's setter) and
commits. -/
def disable (acc : Account) (now : Int) : Account :=
  set_policy_enabled acc false now

/-- The result of `lib.twitter.chunk_twitter_archive`: either the list of
per-month chunk filenames, or the `BadZipFile` exception a malformed
container raises. -/
inductive ChunkResult where
  | ok (files : List String)
  | badZipFile
  deriving DecidableEq

/-- The two failure kinds the upload route can raise and catch:
`BadZipFile` (corrupt container) and `TweetArchiveEmptyException`
(src/routes.py lines 139-141). -/
inductive UploadFailure where
  | corruptArchive
  | emptyArchive
  deriving DecidableEq

/-- Where the upload route redirects the user: the success anchor, or the
index with the dedicated `tweet_archive_failed` flag. -/
inductive UploadRedirect where
  | indexRecentArchives
  | indexTweetArchiveFailed
  deriving DecidableEq

/-- Outcome of the upload route: which failure (if any) was raised inside
the `try` block, which chunk-import tasks were dispatched, and the
response sent to the user. -/
structure UploadOutcome where
  failure : Option UploadFailure
  dispatched : List String
  response : UploadRedirect
  deriving DecidableEq

/-- The upload route (src/routes.py lines 143-171), as a function of the
chunking step's result: a `BadZipFile` or zero chunks is caught and turned
into the `tweet_archive_failed` redirect; otherwise one import task per
chunk is dispatched and the user is redirected to the archives anchor. -/
def upload_tweet_archive (chunking : ChunkResult) : UploadOutcome :=
  match chunking with
  | .badZipFile =>
    { failure := some UploadFailure.corruptArchive
      dispatched := []
      response := UploadRedirect.indexTweetArchiveFailed }
  | .ok files =>
    if 0 < files.length then
      { failure := none
        dispatched := files
        response := UploadRedirect.indexRecentArchives }
    else
      { failure := some UploadFailure.emptyArchive
        dispatched := []
        response := UploadRedirect.indexTweetArchiveFailed }

/-- A session row: opaque id and the owning account's id. -/
structure Session where
  id : Nat
  account_id : Nat
  deriving DecidableEq

/-- The slice of the store the login/logout routes touch: account rows
keyed by id, session rows, and Mastodon instance popularity counters. -/
structure DBState where
  accounts : List (Nat × Account)
  sessions : List Session
  instances : List (String × Nat)
  deriving DecidableEq

/-- Look an account up by id (first matching row). -/
def lookupAccount (accounts : List (Nat × Account)) (aid : Nat) :
    Option Account :=
  (accounts.find? (fun e => e.1 == aid)).map (fun e => e.2)

/-- Set `dormant = False` on the account row with the given id. -/
def setDormantFalse (accounts : List (Nat × Account)) (aid : Nat) :
    List (Nat × Account) :=
  accounts.map (fun e =>
    if e.1 = aid then (e.1, { e.2 with dormant := false }) else e)

/-- The `login` helper (src/routes.py lines 105-115): creates a session
row for the account and sets the account's `dormant` flag to false.
`sid` is the fresh session id the store assigns. -/
def login (st : DBState) (account_id : Nat) (sid : Nat) : DBState :=
  { st with
      sessions := { id := sid, account_id := account_id } :: st.sessions
      accounts := setDormantFalse st.accounts account_id }

/-- The Twitter OAuth callback (src/routes.py lines 118-136), after the
verifier exchange yields `token_account_id`: it just calls `login`. -/
def twitter_login_step2 (st : DBState) (token_account_id : Nat) (sid : Nat) :
    DBState :=
  login st token_account_id sid

/-- Merge-and-bump of a `MastodonInstance` popularity counter. -/
def bumpInstance (instances : List (String × Nat)) (url : String) :
    List (String × Nat) :=
  if instances.any (fun e => e.1 == url) then
    instances.map (fun e => if e.1 = url then (e.1, e.2 + 1) else e)
  else
    (url, 1) :: instances

/-- The Mastodon OAuth callback (src/routes.py lines 318-340), after the
code exchange yields `token_account_id`: calls `login`, then bumps the
instance's popularity counter. -/
def mastodon_login_step2 (st : DBState) (token_account_id : Nat) (sid : Nat)
    (instance_url : String) : DBState :=
  let st1 := login st token_account_id sid
  { st1 with instances := bumpInstance st1.instances instance_url }

/-- The logout route (src/routes.py lines 237-244): deletes the viewer's
session row and nothing else. -/
def logout (st : DBState) (viewer : Session) : DBState :=
  { st with sessions := st.sessions.filter (fun s => s.id != viewer.id) }

/-- A disabled account with a zero deletion interval and no prior delete. -/
def accDisabledZero : Account :=
  { policy_enabled := false, policy_keep_favourites := false,
    policy_keep_latest := 0, policy_delete_every := 0,
    policy_keep_younger := 0, last_delete := none, dormant := false }

/-- A disabled account with a weekly deletion interval and no prior
delete (hence stale by the 365-day rule). -/
def accDisabledStale : Account :=
  { policy_enabled := false, policy_keep_favourites := false,
    policy_keep_latest := 0, policy_delete_every := 604800,
    policy_keep_younger := 0, last_delete := some (-40000000000),
    dormant := true }

/-- An account that is already enabled, with a zero deletion interval. -/
def accEnabledFresh : Account :=
  { policy_enabled := true, policy_keep_favourites := false,
    policy_keep_latest := 10, policy_delete_every := 0,
    policy_keep_younger := 86400, last_delete := some 100, dormant := false }

/-- An enabled account that keeps favourites and retains nothing else. -/
def accKeepFav : Account :=
  { policy_enabled := true, policy_keep_favourites := true,
    policy_keep_latest := 0, policy_delete_every := 604800,
    policy_keep_younger := 0, last_delete := some 0, dormant := false }

/-- A non-favourite post from the epoch. -/
def postPlain : Post := { id := 1, created_at := 0, is_favourite := false }

/-- A sample session row. -/
def sessA : Session := { id := 1, account_id := 10 }

/-- A second session row for the same account. -/
def sessB : Session := { id := 2, account_id := 10 }

/-- A sample store state with one account and two of its sessions. -/
def stSample : DBState :=
  { accounts := [(10, accDisabledStale)], sessions := [sessA, sessB],
    instances := [] }

/-- Helper for C2: the spec-modelled `policy_enabled` setter, applied with
`true` to a disabled account, enables it and leaves `last_delete` set,
filling it with `now` when it was previously unset. -/
theorem set_policy_enabled_true_of_disabled (acc : Account) (now : Int)
    (hdis : acc.policy_enabled = false) :
    (set_policy_enabled acc true now).policy_enabled = true ∧
    (acc.last_delete = none →
      (set_policy_enabled acc true now).last_delete = some now) ∧
    (set_policy_enabled acc true now).last_delete.isSome = true := by
  cases hld : acc.last_delete with
  | none => simp [set_policy_enabled, hdis, hld]
  | some x => simp [set_policy_enabled, hdis, hld]

/-- C1: for every disabled account with `policy_delete_every = 0`, enable
without the confirmation field leaves the account record unchanged (so it
stays disabled) and responds with the zero-delay warning carrying the
estimated affected-post count — a natural number, hence non-negative. -/
theorem enable_zero_delay_no_confirm_warns (acc : Account) (posts : List Post)
    (now : Int) (hdis : acc.policy_enabled = false)
    (hzero : acc.policy_delete_every = 0) :
    (enable false acc posts now).account = acc ∧
    (enable false acc posts now).account.policy_enabled = false ∧
    (enable false acc posts now).result
      = EnableResult.warnZeroDelay (estimate_eligible_for_delete acc posts now) := by
  simp [enable, hdis, hzero]

/-- C1 witness. -/
theorem enable_zero_delay_no_confirm_warns_witness :
    (enable false accDisabledZero [postPlain] 0).account = accDisabledZero ∧
    (enable false accDisabledZero [postPlain] 0).account.policy_enabled = false ∧
    (enable false accDisabledZero [postPlain] 0).result
      = EnableResult.warnZeroDelay
          (estimate_eligible_for_delete accDisabledZero [postPlain] 0) :=
  enable_zero_delay_no_confirm_warns accDisabledZero [postPlain] 0 rfl rfl

/-- C2: whenever enable actually transitions a disabled account (the
response is the index redirect, not a warning), the resulting account is
enabled, `last_delete` is set to `now` if it was previously unset, and in
every such case `last_delete` ends up set. -/
theorem enable_transition_anchors_last_delete (confirm : Bool) (acc : Account)
    (posts : List Post) (now : Int) (hdis : acc.policy_enabled = false)
    (htrans : (enable confirm acc posts now).result = EnableResult.redirectIndex) :
    (enable confirm acc posts now).account.policy_enabled = true ∧
    (acc.last_delete = none →
      (enable confirm acc posts now).account.last_delete = some now) ∧
    (enable confirm acc posts now).account.last_delete.isSome = true := by
  unfold enable at htrans ⊢
  by_cases hc : (!confirm && !acc.policy_enabled) = true
  · simp only [if_pos hc] at htrans ⊢
    by_cases hz : acc.policy_delete_every = 0
    · simp [if_pos hz] at htrans
    · simp only [if_neg hz] at htrans ⊢
      by_cases hs : lastDeleteStale acc.last_delete now = true
      · simp [if_pos hs] at htrans
      · simp only [if_neg hs] at htrans ⊢
        exact set_policy_enabled_true_of_disabled acc now hdis
  · simp only [if_neg hc] at htrans ⊢
    exact set_policy_enabled_true_of_disabled acc now hdis

/-- C2 witness: a confirmed enable on a disabled account with no prior
`last_delete`. -/
theorem enable_transition_anchors_last_delete_witness :
    (enable true accDisabledZero [] 0).account.policy_enabled = true ∧
    (accDisabledZero.last_delete = none →
      (enable true accDisabledZero [] 0).account.last_delete = some 0) ∧
    (enable true accDisabledZero [] 0).account.last_delete.isSome = true :=
  enable_transition_anchors_last_delete true accDisabledZero [] 0 rfl rfl

/-- C3: for every disabled account whose `last_delete` is unset or older
than 365 days, enable without the confirmation field is refused: the
account record is unchanged (still disabled) and the response is one of
the warning screens. -/
theorem enable_stale_no_confirm_refused (acc : Account) (posts : List Post)
    (now : Int) (hdis : acc.policy_enabled = false)
    (hstale : lastDeleteStale acc.last_delete now = true) :
    (enable false acc posts now).account = acc ∧
    (enable false acc posts now).account.policy_enabled = false ∧
    (enable false acc posts now).result.isWarning = true := by
  by_cases hz : acc.policy_delete_every = 0 <;>
    simp [enable, hdis, hz, hstale, EnableResult.isWarning]

/-- C3 witness. -/
theorem enable_stale_no_confirm_refused_witness :
    (enable false accDisabledStale [] 0).account = accDisabledStale ∧
    (enable false accDisabledStale [] 0).account.policy_enabled = false ∧
    (enable false accDisabledStale [] 0).result.isWarning = true :=
  enable_stale_no_confirm_refused accDisabledStale [] 0 rfl rfl

/-- C4: the disable route always succeeds with no precondition: for every
account it just sets `policy_enabled` to false, leaving every other field
unchanged. -/
theorem disable_unconditional (acc : Account) (now : Int) :
    disable acc now = { acc with policy_enabled := false } := by
  simp [disable, set_policy_enabled]

/-- C5: an archive whose chunking yields zero chunks is rejected with the
empty-archive failure — a failure kind distinct from the corrupt-archive
one — no import task is dispatched, and the user gets the failure
redirect rather than the success one. -/
theorem upload_empty_archive_rejected (files : List String)
    (hempty : files.length = 0) :
    (upload_tweet_archive (ChunkResult.ok files)).failure
      = some UploadFailure.emptyArchive ∧
    (upload_tweet_archive (ChunkResult.ok files)).dispatched = [] ∧
    (upload_tweet_archive (ChunkResult.ok files)).response
      = UploadRedirect.indexTweetArchiveFailed ∧
    UploadFailure.emptyArchive ≠ UploadFailure.corruptArchive := by
  simp [upload_tweet_archive, hempty]

/-- C5 witness. -/
theorem upload_empty_archive_rejected_witness :
    (upload_tweet_archive (ChunkResult.ok [])).failure
      = some UploadFailure.emptyArchive ∧
    (upload_tweet_archive (ChunkResult.ok [])).dispatched = [] ∧
    (upload_tweet_archive (ChunkResult.ok [])).response
      = UploadRedirect.indexTweetArchiveFailed ∧
    UploadFailure.emptyArchive ≠ UploadFailure.corruptArchive :=
  upload_empty_archive_rejected [] rfl

/-- C6: a malformed container (the chunker raises `BadZipFile`) is caught
as the distinct corrupt-archive failure and the user is sent the dedicated
`tweet_archive_failed` redirect — a handled response, not an escaping
exception or a 500 — with no import task dispatched. -/
theorem upload_corrupt_archive_flag :
    (upload_tweet_archive ChunkResult.badZipFile).failure
      = some UploadFailure.corruptArchive ∧
    (upload_tweet_archive ChunkResult.badZipFile).dispatched = [] ∧
    (upload_tweet_archive ChunkResult.badZipFile).response
      = UploadRedirect.indexTweetArchiveFailed ∧
    UploadFailure.corruptArchive ≠ UploadFailure.emptyArchive := by
  decide

/-- C7: with `policy_keep_favourites = true`, no favourite post is ever in
the evaluator's eligible set, for any other policy values, post set and
current time. -/
theorem keep_favourites_excludes_favourites (acc : Account) (posts : List Post)
    (now : Int) (hfav : acc.policy_keep_favourites = true) (p : Post)
    (hp : p ∈ eligible_for_delete acc posts now) :
    p.is_favourite = false := by
  simp [eligible_for_delete, hfav, List.mem_filter] at hp
  tauto

/-- C7 witness. -/
theorem keep_favourites_excludes_favourites_witness :
    postPlain ∈ eligible_for_delete accKeepFav [postPlain] 0 ∧
    postPlain.is_favourite = false :=
  ⟨by decide,
   keep_favourites_excludes_favourites accKeepFav [postPlain] 0 rfl postPlain
     (by decide)⟩

/-- C8: logout removes exactly the viewer's session row: accounts and
instance counters are untouched, and a session row survives iff it was
there before and is not the viewer's. -/
theorem logout_deletes_only_viewer_session (st : DBState) (viewer : Session) :
    (logout st viewer).accounts = st.accounts ∧
    (logout st viewer).instances = st.instances ∧
    ∀ s : Session, s ∈ (logout st viewer).sessions ↔
      (s ∈ st.sessions ∧ s.id ≠ viewer.id) := by
  refine ⟨rfl, rfl, fun s => ?_⟩
  simp [logout, List.mem_filter]

/-- C8 witness. -/
theorem logout_deletes_only_viewer_session_witness :
    (logout stSample sessA).accounts = stSample.accounts ∧
    (sessB ∈ (logout stSample sessA).sessions ↔
      (sessB ∈ stSample.sessions ∧ sessB.id ≠ sessA.id)) :=
  ⟨(logout_deletes_only_viewer_session stSample sessA).1,
   (logout_deletes_only_viewer_session stSample sessA).2.2 sessB⟩

/-- Helper for C9: looking up an account after `setDormantFalse` yields
the original account with `dormant` cleared. -/
theorem lookup_setDormantFalse (accounts : List (Nat × Account)) (aid : Nat) :
    lookupAccount (setDormantFalse accounts aid) aid
      = (lookupAccount accounts aid).map (fun a => { a with dormant := false }) := by
  induction accounts with
  | nil => rfl
  | cons e es ih =>
    by_cases h : e.1 = aid
    · simp [lookupAccount, setDormantFalse, List.find?, h]
    · have hb : (e.1 == aid) = false := by simp [h]
      simp only [lookupAccount, setDormantFalse, List.map_cons] at ih ⊢
      rw [if_neg h]
      simp only [List.find?, hb]
      exact ih

/-- C9: `login` clears the account's `dormant` flag and creates the
session row, and both the Twitter and the Mastodon OAuth callbacks go
through `login` (the Mastodon one additionally bumps the instance
counter, touching neither accounts nor sessions further). -/
theorem successful_login_clears_dormant (st : DBState) (aid sid : Nat)
    (url : String) :
    lookupAccount (login st aid sid).accounts aid
      = (lookupAccount st.accounts aid).map (fun a => { a with dormant := false }) ∧
    ({ id := sid, account_id := aid } : Session) ∈ (login st aid sid).sessions ∧
    twitter_login_step2 st aid sid = login st aid sid ∧
    (mastodon_login_step2 st aid sid url).accounts = (login st aid sid).accounts ∧
    (mastodon_login_step2 st aid sid url).sessions = (login st aid sid).sessions := by
  refine ⟨lookup_setDormantFalse st.accounts aid, ?_, rfl, rfl, rfl⟩
  simp [login]

/-- C9 witness. -/
theorem successful_login_clears_dormant_witness :
    lookupAccount (login stSample 10 3).accounts 10
      = (lookupAccount stSample.accounts 10).map
          (fun a => { a with dormant := false }) ∧
    ({ id := 3, account_id := 10 } : Session) ∈ (login stSample 10 3).sessions :=
  ⟨(successful_login_clears_dormant stSample 10 3 "example.social").1,
   (successful_login_clears_dormant stSample 10 3 "example.social").2.1⟩

/-- C10: enable on an account that is already enabled never warns and
needs no confirmation: for any confirmation value, any
`policy_delete_every` and any `last_delete`, the response is the index
redirect and the account stays enabled. -/
theorem enable_already_enabled_no_warning (confirm : Bool) (acc : Account)
    (posts : List Post) (now : Int) (hen : acc.policy_enabled = true) :
    (enable confirm acc posts now).result = EnableResult.redirectIndex ∧
    (enable confirm acc posts now).result.isWarning = false ∧
    (enable confirm acc posts now).account.policy_enabled = true := by
  simp [enable, hen, set_policy_enabled, EnableResult.isWarning]

/-- C10 witness: an already-enabled account with `policy_delete_every = 0`,
called without confirmation. -/
theorem enable_already_enabled_no_warning_witness :
    (enable false accEnabledFresh [] 0).result = EnableResult.redirectIndex ∧
    (enable false accEnabledFresh [] 0).result.isWarning = false ∧
    (enable false accEnabledFresh [] 0).account.policy_enabled = true :=
  enable_already_enabled_no_warning false accEnabledFresh [] 0 rfl

end Forget
